import Mathlib

/-!
Verification development for the neckbeard generation-based deployment
system.  The definitions below are a shallow embedding of the Python
sources `neckbeard/cloud_resource.py` (node record, health and
operational classification, terminate/retire, make-operational),
`neckbeard/environment_manager.py` (the `Deployment` class: generation
ids, node queries, redundancy, repair and generation increment) and the
`seamless_modification` rotation guard of `neckbeard/actions/up.py`.

Modelling conventions:
* The SimpleDB tracker (`InfrastructureNode.objects`) is a list of
  `Node` records; `node.save()` overwrites the record with the same
  `nodename` (the SimpleDB item name).
* Live AWS state is a `CloudEnv`: lookup functions for EC2/RDS
  instances, elastic IP addresses (`get_all_addresses`, whose
  `assert len == 1` is modelled by a total map), load balancers
  (likewise) and the HTTP health probe (`requests.get`; `none` stands
  for ConnectionError/Timeout/RequestException).
* Python exceptions are `Except.error`; a raised exception aborts the
  call, so any state returned through `Except.ok` is untouched on the
  error path.
* Side effects are materialised: record writes are `Event.save`
  entries, AWS mutations are `CloudOp` entries, in the order the source
  issues them.
* The memoisation fields `_active_gen_id` / `_pending_gen_id` of
  `Deployment` are the `cache_active` / `cache_pending` fields of
  `DeployState`; a freshly constructed `Deployment` has both `none`.
  Reads memoise a value computed from unchanged state (observationally
  irrelevant), so only `increment_generation`, which advances both
  caches explicitly (`self._active_gen_id += 1`), manipulates them here.
-/

/-- Live EC2 instance as seen through boto (`boto_instance` for
`aws_type == "ec2"`). -/
structure Ec2Instance where
  id : String
  state : String
  key_name : String
  public_dns_name : String
deriving DecidableEq

/-- Live RDS instance as seen through boto (`boto_instance` for
`aws_type == "rds"`). -/
structure RdsInstance where
  id : String
  status : String
deriving DecidableEq

/-- An elastic IP address record (`ec2conn.get_all_addresses`).
`instance_id` is the instance the address currently points at, if any. -/
structure ElasticIp where
  public_ip : String
  instance_id : Option String
deriving DecidableEq

/-- A load balancer (`elbconn.get_all_load_balancers`).
`instanceHealth` models `get_instance_health` for a given instance id. -/
structure Loadbalancer where
  name : String
  instances : List String
  instanceHealth : String → String

/-- The `health_check` section of a deployment configuration. -/
structure HealthCheck where
  status_url : String
  status_contains : String
  status_check_timeout : Nat
deriving DecidableEq

/-- The deployment configuration attached to a node
(`node.set_deployment_info`).  `keypair` is `aws.keypair`,
`elastic_ip` is `aws.elastic_ip`, `loadbalancer` and `health_check`
are the optional top-level entries, `final_snapshot` is used by
`terminate` for RDS nodes. -/
structure DeployConf where
  keypair : String
  elastic_ip : Option String
  loadbalancer : Option String
  health_check : Option HealthCheck
  final_snapshot : Option String
deriving DecidableEq

/-- The live AWS world: instance lookup by id, address lookup by
configured elastic IP, load balancer lookup by name, and the HTTP
health probe.  `httpGet url = none` models a connection error, timeout
or request exception; `some body` is the response text. -/
structure CloudEnv where
  ec2Instances : String → Option Ec2Instance
  rdsInstances : String → Option RdsInstance
  addresses : String → ElasticIp
  loadbalancers : String → Loadbalancer
  httpGet : String → Option String

/-- One tracked `InfrastructureNode` record (the SimpleDB row).
`nodename` is the SimpleDB `ItemName` (record identity for `save`).
`aws_id` is `none` for a blank/mock node (`get_blank_node` leaves the
field unset, so `if not node.aws_id` is true).  `creation_date` and
the connection handles are irrelevant to the verified logic and are
omitted. -/
structure Node where
  nodename : String
  generation_id : Nat
  deployment_name : String
  aws_type : String
  aws_id : Option String
  name : String
  is_running : Nat
  is_active_generation : Nat
  initial_deploy_complete : Nat
deriving DecidableEq

/-- An AWS-side mutation issued by the node operations. -/
inductive CloudOp where
  | registerInstances (lb : String) (ids : List String)
  | deregisterInstances (lb : String) (ids : List String)
  | associateAddress (public_ip instId : String)
  | disassociateAddress (public_ip : String)
  | terminateInstance (id : String)
  | stopDb (id : String) (finalSnapshot : Option String)
deriving DecidableEq

/-- A persisted effect: a tracker record write (`node.save()`) or an
AWS mutation. -/
inductive Event where
  | save (n : Node)
  | cloud (op : CloudOp)
deriving DecidableEq

/-- Python `needle in haystack` on strings. -/
def strContains (haystack needle : String) : Bool :=
  decide (needle.data <:+: haystack.data)

/-- `InfrastructureNode.get_elastic_ip`: `none` when no elastic IP is
configured, otherwise the address record for the configured IP. -/
def getElasticIp (info : DeployConf) (env : CloudEnv) : Option ElasticIp :=
  info.elastic_ip.map env.addresses

/-- `InfrastructureNode.get_loadbalancer`: `none` when no load balancer
is configured, otherwise the balancer with the configured name. -/
def getLoadbalancer (info : DeployConf) (env : CloudEnv) : Option Loadbalancer :=
  info.loadbalancer.map env.loadbalancers

/-- `InfrastructureNode.is_actually_running`: the live resource exists
and is not in a terminal provider state. -/
def is_actually_running (node : Node) (env : CloudEnv) : Bool :=
  if node.aws_type == "ec2" then
    match node.aws_id.bind env.ec2Instances with
    | some inst => !(["shutting-down", "terminated"].contains inst.state)
    | none => false
  else if node.aws_type == "rds" then
    match node.aws_id.bind env.rdsInstances with
    | some inst => !(["deleted"].contains inst.status)
    | none => false
  else false

/-- The EC2 branch of `InfrastructureNode.is_operational`: running,
correct keypair, the configured elastic IP (if any) points here, and
the node is registered and `InService` in the configured load balancer
(if any).  `awsId` is `self.aws_id` (used for `get_instance_health`),
`inst.id` is `self.boto_instance.id`. -/
def ec2IsOperational (awsId : String) (inst : Ec2Instance) (info : DeployConf)
    (env : CloudEnv) : Bool :=
  if inst.state != "running" then false
  else if inst.key_name != info.keypair then false
  else if (match getElasticIp info env with
           | some eip => eip.instance_id != some inst.id
           | none => false) then false
  else
    match getLoadbalancer info env with
    | none => true
    | some lb =>
      if !(lb.instances.contains inst.id) then false
      else lb.instanceHealth awsId == "InService"

/-- `InfrastructureNode.is_operational`.  `di` is the attached
deployment configuration (`_deployment_info`); a missing boto instance
or missing configuration yields `false`, never an exception. -/
def is_operational (node : Node) (di : Option DeployConf) (env : CloudEnv) : Bool :=
  match node.aws_id with
  | none => false
  | some awsId =>
    if node.aws_type == "ec2" then
      match env.ec2Instances awsId, di with
      | some inst, some info => ec2IsOperational awsId inst info env
      | _, _ => false
    else if node.aws_type == "rds" then
      match env.rdsInstances awsId, di with
      | some inst, some _ => inst.status == "available"
      | _, _ => false
    else false

/-- `InfrastructureNode.get_health_check_url`: `none` when no
`health_check` is configured or the instance has no public DNS name. -/
def get_health_check_url (inst : Ec2Instance) (info : DeployConf) : Option String :=
  match info.health_check with
  | none => none
  | some hc =>
    if inst.public_dns_name == "" then none
    else some ("http://" ++ inst.public_dns_name ++ hc.status_url)

/-- `InfrastructureNode.passes_health_check`: no configured probe means
healthy; connection failures and a body lacking the required substring
mean unhealthy. -/
def passes_health_check (inst : Ec2Instance) (info : DeployConf)
    (env : CloudEnv) : Bool :=
  match get_health_check_url inst info with
  | none => true
  | some status_url =>
    match info.health_check with
    | none => true
    | some hc =>
      match env.httpGet status_url with
      | none => false
      | some text => strContains text hc.status_contains

/-- `InfrastructureNode.is_healthy`: like `is_operational` but ignoring
IP/load-balancer placement; for EC2 it is running + correct keypair +
the optional HTTP probe. -/
def is_healthy (node : Node) (di : Option DeployConf) (env : CloudEnv) : Bool :=
  match node.aws_id with
  | none => false
  | some awsId =>
    if node.aws_type == "ec2" then
      match env.ec2Instances awsId, di with
      | some inst, some info =>
        if inst.state != "running" then false
        else if inst.key_name != info.keypair then false
        else passes_health_check inst info env
      | _, _ => false
    else if node.aws_type == "rds" then
      match env.rdsInstances awsId, di with
      | some inst, some _ => inst.status == "available"
      | _, _ => false
    else false

/-- `InfrastructureNode._instance_in_load_balancer`. -/
def instance_in_load_balancer (node : Node) (info : DeployConf)
    (env : CloudEnv) : Bool :=
  match node.aws_id.bind env.ec2Instances, getLoadbalancer info env with
  | some inst, some lb => lb.instances.contains inst.id
  | _, _ => false

/-- `InfrastructureNode._remove_from_loadbalancer`: deregister only
when a balancer is configured and the instance is currently in it. -/
def remove_from_loadbalancer (node : Node) (info : DeployConf)
    (env : CloudEnv) : List CloudOp :=
  if node.aws_type != "ec2" then []
  else
    match getLoadbalancer info env with
    | none => []
    | some lb =>
      if !(instance_in_load_balancer node info env) then []
      else [CloudOp.deregisterInstances lb.name [node.aws_id.getD ""]]

/-- `InfrastructureNode.make_temporarily_inoperative`: EC2 nodes leave
their load balancer; RDS nodes are a no-op. -/
def make_temporarily_inoperative (node : Node) (info : DeployConf)
    (env : CloudEnv) : List CloudOp :=
  if node.aws_type == "ec2" then remove_from_loadbalancer node info env
  else []

/-- `InfrastructureNode.terminate`: refuses (error, no effect) on an
active-generation operational node; otherwise releases the live
resource when it still exists and returns the record with
`is_running = 0` together with the AWS calls issued. -/
def terminate (node : Node) (di : Option DeployConf) (env : CloudEnv) :
    Except String (Node × List CloudOp) :=
  if node.is_active_generation != 0 && is_operational node di env then
    .error "Cannot hard-terminate an active, operational node"
  else
    let cloudOps : Except String (List CloudOp) :=
      if node.aws_type == "ec2" then
        if is_actually_running node env then
          .ok [CloudOp.terminateInstance (node.aws_id.getD "")]
        else .ok []
      else if node.aws_type == "rds" then
        if is_actually_running node env then
          match di with
          | none => .error "AttributeError: NoneType has no attribute get"
          | some info => .ok [CloudOp.stopDb (node.aws_id.getD "") info.final_snapshot]
        else .ok []
      else .ok []
    match cloudOps with
    | .error e => .error e
    | .ok ops => .ok ({node with is_running := 0}, ops)

/-- `InfrastructureNode.retire`: refuses (error, no effect) on an
active-generation operational node; otherwise only marks the record
not running, touching no live resource. -/
def retire (node : Node) (di : Option DeployConf) (env : CloudEnv) :
    Except String Node :=
  if node.is_active_generation != 0 && is_operational node di env then
    .error "Cannot retire an active, operational node"
  else
    .ok {node with is_running := 0}

/-- `InfrastructureNode.make_operational`: unless forced, requires a
healthy active-generation node; then re-points the configured elastic
IP (the asynchronous `use_ip` retry loop is modelled as the single
association the loop converges to) and registers with the configured
load balancer.  RDS nodes are a no-op. -/
def make_operational (node : Node) (di : Option DeployConf) (env : CloudEnv)
    (force_operational : Bool) : Except String (List CloudOp) :=
  if !force_operational &&
      (!(is_healthy node di env) || node.is_active_generation == 0) then
    .error "Only health nodes in the active generation can be made operational"
  else if node.aws_type == "ec2" then
    match di with
    | none => .error "TypeError: NoneType is not subscriptable"
    | some info =>
      let eip := getElasticIp info env
      let lb := getLoadbalancer info env
      if eip.isNone && lb.isNone then .ok []
      else
        match (node.aws_id.bind env.ec2Instances).map (·.id) with
        | none => .error "AttributeError: NoneType has no attribute id"
        | some instId =>
          let disassocOps :=
            match eip with
            | some e =>
              match e.instance_id with
              | some owner =>
                if owner != instId then [CloudOp.disassociateAddress e.public_ip]
                else []
              | none => []
            | none => []
          let assocOps :=
            match eip with
            | some e =>
              if e.instance_id != some instId then
                [CloudOp.associateAddress e.public_ip instId]
              else []
            | none => []
          let registerOps :=
            match lb with
            | some l => [CloudOp.registerInstances l.name [instId]]
            | none => []
          .ok (disassocOps ++ assocOps ++ registerOps)
  else .ok []

/-- Apply one AWS mutation to the live world. -/
def applyCloudOp (env : CloudEnv) (op : CloudOp) : CloudEnv :=
  match op with
  | .registerInstances lbName ids =>
    {env with loadbalancers := fun n =>
      if n == lbName then
        let lb := env.loadbalancers n
        {lb with instances := lb.instances ++ ids}
      else env.loadbalancers n}
  | .deregisterInstances lbName ids =>
    {env with loadbalancers := fun n =>
      if n == lbName then
        let lb := env.loadbalancers n
        {lb with instances := lb.instances.filter (fun i => !(ids.contains i))}
      else env.loadbalancers n}
  | .associateAddress ip instId =>
    {env with addresses := fun a =>
      if a == ip then {env.addresses a with instance_id := some instId}
      else env.addresses a}
  | .disassociateAddress ip =>
    {env with addresses := fun a =>
      if a == ip then {env.addresses a with instance_id := none}
      else env.addresses a}
  | .terminateInstance id =>
    {env with ec2Instances := fun i =>
      if i == id then (env.ec2Instances i).map (fun inst => {inst with state := "shutting-down"})
      else env.ec2Instances i}
  | .stopDb id _ =>
    {env with rdsInstances := fun i =>
      if i == id then (env.rdsInstances i).map (fun inst => {inst with status := "deleted"})
      else env.rdsInstances i}

/-- Apply a list of AWS mutations in order. -/
def applyCloudOps (env : CloudEnv) (ops : List CloudOp) : CloudEnv :=
  ops.foldl applyCloudOp env

/-- `node.save()`: overwrite the tracker record with the same item name. -/
def applySave (tracker : List Node) (n : Node) : List Node :=
  tracker.map (fun m => if m.nodename == n.nodename then n else m)

/-- Apply a list of record writes in order. -/
def applySaveList (tracker : List Node) (ws : List Node) : List Node :=
  ws.foldl applySave tracker

/-- The tracker records written by a list of events, in order. -/
def recordSaves (evs : List Event) : List Node :=
  evs.filterMap (fun e => match e with | .save n => some n | .cloud _ => none)

/-- The state of one `Deployment` object plus the world it acts on:
the deployment configurations (an association list replacing the
`deployment_confs[aws_type][name]` dictionaries, iterated in list
order), the SimpleDB tracker, the live AWS state and the two
memoisation fields. -/
structure DeployState where
  deployment_name : String
  deployment_confs : List (String × String × DeployConf)
  tracker : List Node
  env : CloudEnv
  cache_active : Option Nat
  cache_pending : Option Nat

/-- `deployment_confs[aws_type].get(name)`. -/
def confLookup (s : DeployState) (aws_type name : String) : Option DeployConf :=
  (s.deployment_confs.find? (fun e => e.1 == aws_type && e.2.1 == name)).map (·.2.2)

/-- The records the `active_gen_id` scan sees: this deployment,
`is_active_generation = 1`. -/
def activeFlagged (s : DeployState) : List Node :=
  s.tracker.filter (fun n =>
    n.deployment_name == s.deployment_name && n.is_active_generation == 1)

/-- The uncached body of the `Deployment.active_gen_id` property:
`none` when no record is flagged active; the common generation id when
all flagged records agree; an exception when two flagged records carry
different generation ids. -/
def activeGenIdScan (s : DeployState) : Except String (Option Nat) :=
  match activeFlagged s with
  | [] => .ok none
  | first :: rest =>
    if (first :: rest).all (fun n => n.generation_id == first.generation_id) then
      .ok (some first.generation_id)
    else .error "Inconsistent generation ids in simpledb"

/-- `Deployment.active_gen_id` with its memoisation
(`if self._active_gen_id: return self._active_gen_id`, Python
truthiness, so a cached 0 falls through to the scan). -/
def active_gen_id (s : DeployState) : Except String (Option Nat) :=
  match s.cache_active with
  | some g => if g != 0 then .ok (some g) else activeGenIdScan s
  | none => activeGenIdScan s

/-- The uncached body of `Deployment.pending_gen_id`:
`active_gen_id + 1`, or `1` when no active generation exists
(again via Python truthiness on the active id). -/
def pendingGenIdScan (s : DeployState) : Except String Nat := do
  match ← active_gen_id s with
  | some g => if g != 0 then pure (g + 1) else pure 1
  | none => pure 1

/-- `Deployment.pending_gen_id` with its memoisation. -/
def pending_gen_id (s : DeployState) : Except String Nat :=
  match s.cache_pending with
  | some p => if p != 0 then .ok p else pendingGenIdScan s
  | none => pendingGenIdScan s

/-- `Deployment.get_all_nodes`: filter the tracker by deployment name,
optional generation id (skipped for a falsy argument, as in
`if generation_id:`) and optional `is_running`; keep only nodes whose
role has a configuration, pairing each with it
(`node.set_deployment_info`). -/
def get_all_nodes (s : DeployState) (generation_id : Option Nat)
    (is_running : Option Nat) : List (Node × DeployConf) :=
  let matching : List Node :=
    s.tracker.filter (fun n => n.deployment_name == s.deployment_name)
  let matching : List Node :=
    match generation_id with
    | some g => if g != 0 then matching.filter (fun n => n.generation_id == g) else matching
    | none => matching
  let matching : List Node :=
    match is_running with
    | some r => matching.filter (fun n => n.is_running == r)
    | none => matching
  matching.filterMap (fun n => (confLookup s n.aws_type n.name).map (fun c => (n, c)))

/-- `Deployment.get_node`: exact lookup; more than one match is fatal;
a single match is paired with its configuration
(`deployment_confs[aws_type][name]`, a KeyError when absent). -/
def get_node (s : DeployState) (aws_type node_name : String)
    (generation_id : Nat) (is_running : Nat) :
    Except String (Option (Node × DeployConf)) :=
  let matching := s.tracker.filter (fun n =>
    n.deployment_name == s.deployment_name &&
    n.generation_id == generation_id &&
    n.aws_type == aws_type &&
    n.name == node_name &&
    n.is_running == is_running)
  match matching with
  | [] => .ok none
  | [n] =>
    match confLookup s aws_type node_name with
    | some c => .ok (some (n, c))
    | none => .error "KeyError: no deployment configuration for this node"
  | _ => .error "More than one matching node"

/-- `Deployment.get_active_node` (`if self.active_gen_id:`). -/
def get_active_node (s : DeployState) (aws_type node_name : String) :
    Except String (Option (Node × DeployConf)) := do
  match ← active_gen_id s with
  | some g => if g != 0 then get_node s aws_type node_name g 1 else pure none
  | none => pure none

/-- `Deployment.get_pending_node`. -/
def get_pending_node (s : DeployState) (aws_type node_name : String) :
    Except String (Option (Node × DeployConf)) := do
  get_node s aws_type node_name (← pending_gen_id s) 1

/-- `Deployment.get_all_active_nodes`. -/
def get_all_active_nodes (s : DeployState) (is_running : Option Nat) :
    Except String (List (Node × DeployConf)) := do
  match ← active_gen_id s with
  | some g => if g != 0 then pure (get_all_nodes s (some g) is_running) else pure []
  | none => pure []

/-- `Deployment.get_all_pending_nodes`. -/
def get_all_pending_nodes (s : DeployState) (is_running : Option Nat) :
    Except String (List (Node × DeployConf)) := do
  pure (get_all_nodes s (some (← pending_gen_id s)) is_running)

/-- An entry of the repair/health listings: either a synthesized
placeholder for a configured role with no matching node
(`get_blank_node` mock, recognisable by `not node.aws_id`), or a real
node with its configuration. -/
inductive RepairTarget where
  | missing (aws_type name : String)
  | node (n : Node) (conf : DeployConf)
deriving DecidableEq

/-- `Deployment.get_inoperational_active_nodes`: for every configured
`(aws_type, name)` role, a placeholder when no active node exists, or
the node when it is not operational. -/
def get_inoperational_active_nodes (s : DeployState) :
    Except String (List RepairTarget) :=
  s.deployment_confs.foldlM (fun acc e => do
    match ← get_active_node s e.1 e.2.1 with
    | none => pure (acc ++ [RepairTarget.missing e.1 e.2.1])
    | some (n, c) =>
      if !(is_operational n (some c) s.env) then pure (acc ++ [RepairTarget.node n c])
      else pure acc) []

/-- `Deployment.get_unhealthy_pending_nodes`: running pending nodes
that are unhealthy, then for every configured role either a
placeholder (role missing) or the pending node when unhealthy. -/
def get_unhealthy_pending_nodes (s : DeployState) :
    Except String (List RepairTarget) := do
  let nodes ← get_all_pending_nodes s none
  let unhealthy := (nodes.filter (fun p =>
      p.1.is_running != 0 && !(is_healthy p.1 (some p.2) s.env))).map
    (fun p => RepairTarget.node p.1 p.2)
  s.deployment_confs.foldlM (fun acc e => do
    match ← get_pending_node s e.1 e.2.1 with
    | none => pure (acc ++ [RepairTarget.missing e.1 e.2.1])
    | some (n, c) =>
      if !(is_healthy n (some c) s.env) then pure (acc ++ [RepairTarget.node n c])
      else pure acc) unhealthy

/-- `Deployment.active_is_fully_operational`. -/
def active_is_fully_operational (s : DeployState) : Except String Bool := do
  pure (← get_inoperational_active_nodes s).isEmpty

/-- `Deployment.pending_is_healthy`. -/
def pending_is_healthy (s : DeployState) : Except String Bool := do
  pure (← get_unhealthy_pending_nodes s).isEmpty

/-- `Deployment.has_required_redundancy`: the running configured nodes
of `node`s generation and `aws_type` are scanned and any node with a
DIFFERENT `name` that is operational counts as redundancy (the source
excludes "the node we are checking" by comparing `name`, not record
identity). -/
def has_required_redundancy (s : DeployState) (node : Node) : Bool :=
  let all_gen_nodes := get_all_nodes s (some node.generation_id) (some 1)
  let same_aws_nodes := all_gen_nodes.filter (fun p => p.1.aws_type == node.aws_type)
  let other_operational_nodes := same_aws_nodes.filter (fun p =>
    p.1.name != node.name && is_operational p.1 (some p.2) s.env)
  !other_operational_nodes.isEmpty

/-- `WAIT_TIME` (seconds between repair polls). -/
def WAIT_TIME : Nat := 10

/-- `MAKE_OPERATIONAL_TIMEOUT` (4 minutes). -/
def MAKE_OPERATIONAL_TIMEOUT : Nat := 4 * 60

/-- The per-node loop of `Deployment.repair_active_generation`:
placeholders (no `aws_id`) are skipped; a node that is still not
operational is made operational when healthy or forced (an exception
from `make_operational` propagates); issued AWS mutations are applied
to the live world as later iterations re-read it.  Returns the ops
issued, the resulting world and the `made_operational` list. -/
def repairLoop (force : Bool) (env : CloudEnv) :
    List RepairTarget → List CloudOp × CloudEnv × Except String (List (Node × DeployConf))
  | [] => ([], env, .ok [])
  | .missing _ _ :: rest => repairLoop force env rest
  | .node n c :: rest =>
    if !(is_operational n (some c) env) then
      if is_healthy n (some c) env || force then
        match make_operational n (some c) env force with
        | .error e => ([], env, .error e)
        | .ok ops =>
          let env2 := applyCloudOps env ops
          let (log, env3, res) := repairLoop force env2 rest
          (ops ++ log, env3, res.map (fun l => (n, c) :: l))
      else repairLoop force env rest
    else repairLoop force env rest

/-- The `while made_operational:` poll of
`Deployment.repair_active_generation`: check the timeout, drop nodes
that have become operational, sleep `WAIT_TIME` and repeat.  `fuel`
only bounds the recursion for Lean; the source loop is itself bounded
because `time_waited` grows past `MAKE_OPERATIONAL_TIMEOUT`. -/
def repairWait (env : CloudEnv) (made : List (Node × DeployConf))
    (time_waited : Nat) (fuel : Nat) : Except String Unit :=
  match made with
  | [] => .ok ()
  | _ :: _ =>
    if time_waited > MAKE_OPERATIONAL_TIMEOUT then
      .error "Timed out waiting on nodes"
    else
      match made.filter (fun p => !(is_operational p.1 (some p.2) env)) with
      | [] => .ok ()
      | remaining =>
        match fuel with
        | 0 => .error "model recursion fuel exhausted"
        | f + 1 => repairWait env remaining (time_waited + WAIT_TIME) f

/-- `Deployment.repair_active_generation`: short-circuits when the
active generation is already fully operational; otherwise fixes each
inoperational node via `repairLoop`, optionally waits for the fixes to
take effect, and returns the nodes it acted on together with the AWS
mutations issued and the resulting state. -/
def repair_active_generation (s : DeployState)
    (force_operational wait_until_operational : Bool) :
    List CloudOp × Except String (DeployState × List Node) :=
  match active_is_fully_operational s with
  | .error e => ([], .error e)
  | .ok true => ([], .ok (s, []))
  | .ok false =>
    match get_inoperational_active_nodes s with
    | .error e => ([], .error e)
    | .ok targets =>
      let (log, env2, res) := repairLoop force_operational s.env targets
      match res with
      | .error e => (log, .error e)
      | .ok made =>
        let fixed_nodes := made.map (·.1)
        if made.isEmpty then (log, .ok ({s with env := env2}, []))
        else if !wait_until_operational then (log, .ok ({s with env := env2}, fixed_nodes))
        else
          match repairWait env2 made 0 (MAKE_OPERATIONAL_TIMEOUT / WAIT_TIME + 2) with
          | .error e => (log, .error e)
          | .ok _ => (log, .ok ({s with env := env2}, fixed_nodes))

/-- The tail of `Deployment.increment_generation` after the
generation flips and the id advance: run `repair_active_generation()`
on the advanced state and append its AWS mutations to the write log
already issued. -/
def increment_finish (log : List Event) (s2 : DeployState) :
    List Event × Except String DeployState :=
  match repair_active_generation s2 false true with
  | (rlog, .error e) => (log ++ rlog.map Event.cloud, .error e)
  | (rlog, .ok (s3, _)) => (log ++ rlog.map Event.cloud, .ok s3)

/-- `Deployment.increment_generation`: fatal unless the pending
generation is fully healthy; then every current active-generation node
is saved with `is_active_generation = 0`, every pending-generation
node with `is_active_generation = 1` (each node an independent write,
actives first), the memoised ids are advanced
(`self._active_gen_id += 1` — a `TypeError` when no active generation
exists, after the pending flips are already written), and finally
`repair_active_generation()` runs on the newly active generation. -/
def increment_generation (s : DeployState) : List Event × Except String DeployState :=
  match pending_is_healthy s with
  | .error e => ([], .error e)
  | .ok false =>
    ([], .error "Pending generation must be fully healthy to increment_generation")
  | .ok true =>
    match get_all_active_nodes s none, get_all_pending_nodes s none with
    | .error e, _ => ([], .error e)
    | _, .error e => ([], .error e)
    | .ok active_nodes, .ok pending_nodes =>
      let activeSaves := active_nodes.map
        (fun p => Event.save {p.1 with is_active_generation := 0})
      let pendingSaves := pending_nodes.map
        (fun p => Event.save {p.1 with is_active_generation := 1})
      let log := activeSaves ++ pendingSaves
      let tracker2 := applySaveList s.tracker (recordSaves log)
      match active_gen_id s, pending_gen_id s with
      | .error e, _ => (log, .error e)
      | .ok none, _ =>
        (log, .error "TypeError: unsupported operand types for +=: NoneType and int")
      | .ok (some _), .error e => (log, .error e)
      | .ok (some g), .ok p =>
        increment_finish log
          {s with tracker := tracker2,
                  cache_active := some (g + 1), cache_pending := some (p + 1)}

/-- The pre-`yield` phase of `seamless_modification`
(`neckbeard/actions/up.py`): the redundancy guard (interactive prompt
or non-interactive fatal abort, `exit(1)` modelled as an error), then
the rotation of an operational node out of service.  Returns the AWS
mutations issued and, on the non-aborting path, the `make_operational`
flag remembered for the restore phase; the disruption branch
(`node.make_temporarily_inoperative()`) is only ever reached on an
`Except.ok` outcome. -/
def seamless_modification_enter (node : Option (Node × DeployConf))
    (s : DeployState) (force_seamless force_operational interactive : Bool)
    (promptAnswer : String) : List CloudOp × Except String Bool :=
  let guard : Except String Unit :=
    match node with
    | some p =>
      if force_seamless then
        if !(has_required_redundancy s p.1) then
          if interactive then
            if promptAnswer != "Y" then
              .error "Node does not have required redundancy. Aborting"
            else .ok ()
          else .error "Deployment marked non-interactive. Aborting."
        else .ok ()
      else .ok ()
    | none => .ok ()
  match guard with
  | .error e => ([], .error e)
  | .ok () =>
    match node with
    | some p =>
      if is_operational p.1 (some p.2) s.env then
        (make_temporarily_inoperative p.1 p.2 s.env, .ok true)
      else ([], .ok force_operational)
    | none => ([], .ok force_operational)

/-- The flip-to-inactive record writes `increment_generation` issues
for the nodes of generation `g` (one independent `save` per node). -/
def flipOffSaves (s : DeployState) (g : Nat) : List Event :=
  (get_all_nodes s (some g) none).map
    (fun p => Event.save {p.1 with is_active_generation := 0})

/-- The flip-to-active record writes `increment_generation` issues for
the nodes of generation `g` (one independent `save` per node). -/
def flipOnSaves (s : DeployState) (g : Nat) : List Event :=
  (get_all_nodes s (some g) none).map
    (fun p => Event.save {p.1 with is_active_generation := 1})

/-- An empty AWS world (no instances, unassociated addresses, empty
balancers, unreachable probes). -/
def emptyEnv : CloudEnv where
  ec2Instances := fun _ => none
  rdsInstances := fun _ => none
  addresses := fun _ => { public_ip := "", instance_id := none }
  loadbalancers := fun _ => { name := "", instances := [], instanceHealth := fun _ => "OutOfService" }
  httpGet := fun _ => none

/-- A tracker record of the example deployment "d". -/
def mkNode (nodename : String) (gen : Nat) (aws_type : String)
    (aws_id : Option String) (name : String) (run act : Nat) : Node where
  nodename := nodename
  generation_id := gen
  deployment_name := "d"
  aws_type := aws_type
  aws_id := aws_id
  name := name
  is_running := run
  is_active_generation := act
  initial_deploy_complete := 0

/-- A minimal configuration: keypair only. -/
def plainConf : DeployConf where
  keypair := "kp"
  elastic_ip := none
  loadbalancer := none
  health_check := none
  final_snapshot := none

/-- A running EC2 instance with the example keypair. -/
def runningEc2 (id : String) : Ec2Instance where
  id := id
  state := "running"
  key_name := "kp"
  public_dns_name := "host.example.com"

/-- State for C1: no record flagged active. -/
def exNoActive : DeployState where
  deployment_name := "d"
  deployment_confs := []
  tracker := []
  env := emptyEnv
  cache_active := none
  cache_pending := none

/-- State for C1: two records flagged active, same generation. -/
def exAgreeActive : DeployState where
  deployment_name := "d"
  deployment_confs := []
  tracker := [mkNode "a" 1 "ec2" (some "i-1") "web" 1 1,
              mkNode "b" 1 "ec2" (some "i-2") "web2" 1 1]
  env := emptyEnv
  cache_active := none
  cache_pending := none

/-- State for C1: two records flagged active with different generation
ids — the fatal inconsistency. -/
def exConflictActive : DeployState where
  deployment_name := "d"
  deployment_confs := []
  tracker := [mkNode "a" 1 "ec2" (some "i-1") "web" 1 1,
              mkNode "b" 2 "ec2" (some "i-2") "web2" 1 1]
  env := emptyEnv
  cache_active := none
  cache_pending := none

/-- Environment with two running EC2 instances `i-1`, `i-2`. -/
def twoEc2Env : CloudEnv :=
  {emptyEnv with ec2Instances := fun i =>
    if i == "i-1" || i == "i-2" then some (runningEc2 i) else none}

/-- C2 counterexample: first record of the duplicated role "web". -/
def dupWebA : Node := mkNode "web-a" 1 "ec2" (some "i-1") "web" 1 1

/-- C2 counterexample: second record of the duplicated role "web" —
a distinct record sharing `name` with `dupWebA`. -/
def dupWebB : Node := mkNode "web-b" 1 "ec2" (some "i-2") "web" 1 1

/-- C2 counterexample state: two distinct running operational EC2
records with the same role name in the same generation. -/
def dupWebState : DeployState where
  deployment_name := "d"
  deployment_confs := [("ec2", "web", plainConf)]
  tracker := [dupWebA, dupWebB]
  env := twoEc2Env
  cache_active := none
  cache_pending := none

/-- C2 witness state: two distinctly named operational EC2 roles. -/
def twoRoleState : DeployState where
  deployment_name := "d"
  deployment_confs := [("ec2", "web", plainConf), ("ec2", "web2", plainConf)]
  tracker := [mkNode "web-a" 1 "ec2" (some "i-1") "web" 1 1,
              mkNode "web2-a" 1 "ec2" (some "i-2") "web2" 1 1]
  env := twoEc2Env
  cache_active := none
  cache_pending := none

/-- C3 witness state: one configured RDS role with no pending node at
all (the role is "missing", so the pending generation is unhealthy). -/
def missingRoleState : DeployState where
  deployment_name := "d"
  deployment_confs := [("rds", "db", plainConf)]
  tracker := []
  env := emptyEnv
  cache_active := none
  cache_pending := none

/-- Environment with available RDS instances `db-1`, `db-2`. -/
def rdsEnv : CloudEnv :=
  {emptyEnv with rdsInstances := fun i =>
    if i == "db-1" || i == "db-2" then some { id := i, status := "available" } else none}

/-- An active-generation RDS node backed by the available `db-1`. -/
def rdsActiveNode : Node := mkNode "db-g1" 1 "rds" (some "db-1") "db" 1 1

/-- A pending-generation RDS node backed by the available `db-2`. -/
def rdsPendingNode : Node := mkNode "db-g2" 2 "rds" (some "db-2") "db" 1 0

/-- State with a single fully-operational active RDS generation
(used for C4, C6, C7 and C8 witnesses). -/
def rdsActiveState : DeployState where
  deployment_name := "d"
  deployment_confs := [("rds", "db", plainConf)]
  tracker := [rdsActiveNode]
  env := rdsEnv
  cache_active := none
  cache_pending := none

/-- C9 witness state: healthy active generation 1 and healthy pending
generation 2 for the single configured role. -/
def promoteState : DeployState where
  deployment_name := "d"
  deployment_confs := [("rds", "db", plainConf)]
  tracker := [rdsActiveNode, rdsPendingNode]
  env := rdsEnv
  cache_active := none
  cache_pending := none

/-- C9 counterexample: an active-flagged record whose role name has no
entry in the deployment configuration. -/
def ghostNode : Node := mkNode "ghost-g1" 1 "rds" (some "db-9") "ghost" 1 1

/-- C9 counterexample state: `promoteState` plus the unconfigured
active-flagged `ghostNode`. -/
def ghostState : DeployState where
  deployment_name := "d"
  deployment_confs := [("rds", "db", plainConf)]
  tracker := [rdsActiveNode, ghostNode, rdsPendingNode]
  env := rdsEnv
  cache_active := none
  cache_pending := none

/-- C10 witness state: no active generation yet; the pending
generation 1 node for the single configured role is healthy. -/
def firstPromotionState : DeployState where
  deployment_name := "d"
  deployment_confs := [("rds", "db", plainConf)]
  tracker := [mkNode "db-g1" 1 "rds" (some "db-1") "db" 1 0]
  env := rdsEnv
  cache_active := none
  cache_pending := none

/-- C5: the configured health check. -/
def probeHC : HealthCheck where
  status_url := "/status"
  status_contains := "SYSTEM OK"
  status_check_timeout := 5

/-- C5: configuration with a health check but no elastic IP and no
load balancer. -/
def probeConf : DeployConf where
  keypair := "kp"
  elastic_ip := none
  loadbalancer := none
  health_check := some probeHC
  final_snapshot := none

/-- C5: the running instance whose probe will fail. -/
def probeInst : Ec2Instance where
  id := "i-5"
  state := "running"
  key_name := "kp"
  public_dns_name := "web5.example.com"

/-- C5: environment where the probe answers with a body lacking the
required substring. -/
def probeEnv : CloudEnv where
  ec2Instances := fun i => if i == "i-5" then some probeInst else none
  rdsInstances := fun _ => none
  addresses := fun _ => { public_ip := "", instance_id := none }
  loadbalancers := fun _ => { name := "", instances := [], instanceHealth := fun _ => "OutOfService" }
  httpGet := fun u =>
    if u == "http://web5.example.com/status" then some "ERROR: database down" else none

/-- C5: the tracked node backed by `probeInst`. -/
def probeNode : Node := mkNode "web5-g2" 2 "ec2" (some "i-5") "web" 1 1

/-- Reduction of `>>=` on a successful `Except` value. -/
theorem exceptOkBind {α β : Type} (a : α) (f : α → Except String β) :
    (Except.ok a >>= f : Except String β) = f a := rfl

/-- A node with no attached deployment configuration is never
operational (`is_operational` logs and returns `False`). -/
theorem is_operational_no_conf (node : Node) (env : CloudEnv) :
    is_operational node none env = false := by
  unfold is_operational
  cases node.aws_id with
  | none => rfl
  | some a =>
    by_cases h1 : node.aws_type == "ec2" <;> by_cases h2 : node.aws_type == "rds" <;>
      cases env.ec2Instances a <;> cases env.rdsInstances a <;> simp [h1, h2]

/-- C1: on a freshly constructed tracker view, `active_gen_id` returns
`none` when no record is flagged active, returns the common generation
id when all active-flagged records agree, and raises the fatal
consistency error as soon as two active-flagged records carry
different generation ids — the conflict is never silently resolved. -/
theorem active_gen_id_consistency (s : DeployState) (hc : s.cache_active = none) :
    (activeFlagged s = [] → active_gen_id s = .ok none) ∧
    (∀ g : Nat, activeFlagged s ≠ [] →
      (∀ n ∈ activeFlagged s, n.generation_id = g) →
      active_gen_id s = .ok (some g)) ∧
    ((∃ n ∈ activeFlagged s, ∃ m ∈ activeFlagged s,
        n.generation_id ≠ m.generation_id) →
      ∃ e, active_gen_id s = .error e) := by
  have hbase : active_gen_id s = activeGenIdScan s := by
    unfold active_gen_id; rw [hc]
  refine ⟨?_, ?_, ?_⟩
  · intro h
    rw [hbase]; unfold activeGenIdScan; rw [h]
  · intro g hne hall
    rw [hbase]; unfold activeGenIdScan
    cases hfl : activeFlagged s with
    | nil => exact absurd hfl hne
    | cons first rest =>
      have hfirst : first.generation_id = g :=
        hall first (by rw [hfl]; exact List.mem_cons_self _ _)
      have hallb :
          (first :: rest).all (fun n => n.generation_id == first.generation_id) = true := by
        rw [List.all_eq_true]
        intro n hn
        have hng : n.generation_id = g := hall n (by rw [hfl]; exact hn)
        simp [hng, hfirst]
      show (if ((first :: rest).all fun n => n.generation_id == first.generation_id) = true
        then Except.ok (some first.generation_id)
        else Except.error "Inconsistent generation ids in simpledb") = Except.ok (some g)
      rw [hallb, hfirst]
      rfl
  · rintro ⟨n, hn, m, hm, hnm⟩
    rw [hbase]; unfold activeGenIdScan
    cases hfl : activeFlagged s with
    | nil =>
      rw [hfl] at hn
      exact absurd hn (List.not_mem_nil n)
    | cons first rest =>
      rw [hfl] at hn hm
      have hallb :
          (first :: rest).all (fun k => k.generation_id == first.generation_id) = false := by
        rcases hcon : (first :: rest).all
            (fun k => k.generation_id == first.generation_id) with _ | _
        · rfl
        · exfalso
          rw [List.all_eq_true] at hcon
          have h1 := hcon n hn
          have h2 := hcon m hm
          rw [beq_iff_eq] at h1 h2
          exact hnm (h1.trans h2.symm)
      simp [hallb]

/-- C3: when a pending-generation node is unhealthy or a configured
pending role is missing (the unhealthy-pending listing is nonempty),
`increment_generation` raises before issuing any write: no record save
and no AWS call is made, so every persisted field is as before. -/
theorem increment_generation_unhealthy_no_mutation (s : DeployState)
    (us : List RepairTarget)
    (hu : get_unhealthy_pending_nodes s = .ok us) (hne : us ≠ []) :
    increment_generation s =
      ([], .error "Pending generation must be fully healthy to increment_generation") := by
  have hph : pending_is_healthy s = .ok false := by
    unfold pending_is_healthy
    rw [hu, exceptOkBind, List.isEmpty_eq_false.mpr hne]
    rfl
  unfold increment_generation
  rw [hph]

/-- C4: `terminate` and `retire` both refuse an active-generation
operational node with a hard error; since the error aborts before the
per-type branches, no AWS call is issued and the record (including
`is_running`) is unchanged. -/
theorem terminate_retire_guard (node : Node) (di : Option DeployConf)
    (env : CloudEnv) (hact : node.is_active_generation ≠ 0)
    (hop : is_operational node di env = true) :
    terminate node di env = .error "Cannot hard-terminate an active, operational node" ∧
    retire node di env = .error "Cannot retire an active, operational node" := by
  have hb : (node.is_active_generation != 0) = true := by simp [hact]
  constructor
  · unfold terminate; rw [hb, hop]; rfl
  · unfold retire; rw [hb, hop]; rfl

/-- C6: with a present node, `force_seamless` set, non-interactive mode
and no redundancy, `seamless_modification` aborts fatally in the guard:
the result is the abort error with an empty list of AWS mutations, and
since the branch that calls `make_temporarily_inoperative` always
returns through `Except.ok`, the disruption step is never reached. -/
theorem seamless_modification_aborts_without_redundancy
    (p : Node × DeployConf) (s : DeployState) (force_operational : Bool)
    (ans : String)
    (_hop : is_operational p.1 (some p.2) s.env = true)
    (hred : has_required_redundancy s p.1 = false) :
    seamless_modification_enter (some p) s true force_operational false ans =
      ([], .error "Deployment marked non-interactive. Aborting.") := by
  simp [seamless_modification_enter, hred]

/-- C7: `repair_active_generation` is idempotent at its fixed point:
when the active generation is already fully operational it issues no
AWS mutation, writes no record, leaves the state untouched and returns
the empty node list — and therefore a second call from the returned
state does exactly the same. -/
theorem repair_active_generation_fixed_point (s : DeployState)
    (force wait : Bool) (h : active_is_fully_operational s = .ok true) :
    ∃ s1, repair_active_generation s force wait = ([], .ok (s1, [])) ∧
      s1 = s ∧
      repair_active_generation s1 force wait = ([], .ok (s1, [])) := by
  refine ⟨s, ?_, rfl, ?_⟩ <;> (unfold repair_active_generation; rw [h])

/-- C8: `pending_gen_id` is always derived, never read from storage:
on a freshly constructed view it is `active_gen_id + 1` whenever an
active generation exists and `1` when none exists. -/
theorem pending_gen_id_derived (s : DeployState) (hcp : s.cache_pending = none) :
    (∀ g : Nat, active_gen_id s = .ok (some g) → pending_gen_id s = .ok (g + 1)) ∧
    (active_gen_id s = .ok none → pending_gen_id s = .ok 1) := by
  have hbase : pending_gen_id s = pendingGenIdScan s := by
    unfold pending_gen_id; rw [hcp]
  constructor
  · intro g hg
    rw [hbase]; unfold pendingGenIdScan
    rw [hg, exceptOkBind]
    by_cases h0 : g = 0
    · subst h0; rfl
    · have hb : (g != 0) = true := by simp [h0]
      show (if (g != 0) = true then pure (g + 1) else pure 1 :
        Except String Nat) = Except.ok (g + 1)
      rw [hb]
      rfl
  · intro hg
    rw [hbase]; unfold pendingGenIdScan
    rw [hg, exceptOkBind]
    rfl

/-- C10: first-ever promotion edge case: with no active generation
(`active_gen_id = none`, pending id 1) and a fully healthy pending
generation, `increment_generation` first writes every pending node
with `is_active_generation = 1` and then raises the `TypeError` from
`self._active_gen_id += 1` (an absent id cannot be incremented) — the
call never reaches `repair_active_generation` (no AWS op appears in
the log) and does not complete normally. -/
theorem increment_generation_first_promotion (s : DeployState)
    (hactive : active_gen_id s = .ok none) (hcp : s.cache_pending = none)
    (hh : pending_is_healthy s = .ok true) :
    increment_generation s =
      ((get_all_nodes s (some 1) none).map
        (fun p => Event.save {p.1 with is_active_generation := 1}),
       .error "TypeError: unsupported operand types for +=: NoneType and int") := by
  have hpend : pending_gen_id s = .ok 1 := by
    unfold pending_gen_id; rw [hcp]
    unfold pendingGenIdScan
    rw [hactive, exceptOkBind]
    rfl
  have hga : get_all_active_nodes s none = .ok [] := by
    unfold get_all_active_nodes
    rw [hactive, exceptOkBind]
    rfl
  have hgp : get_all_pending_nodes s none = .ok (get_all_nodes s (some 1) none) := by
    unfold get_all_pending_nodes
    rw [hpend, exceptOkBind]
    rfl
  unfold increment_generation
  rw [hh, hga, hgp, hactive]
  rfl

/-- Witness for C1: the three `active_gen_id` behaviours at concrete
tracker states. -/
theorem active_gen_id_consistency_witness :
    active_gen_id exNoActive = .ok none ∧
    active_gen_id exAgreeActive = .ok (some 1) ∧
    (∃ e, active_gen_id exConflictActive = .error e) :=
  ⟨(active_gen_id_consistency exNoActive rfl).1 rfl,
   (active_gen_id_consistency exAgreeActive rfl).2.1 1 (by decide) (by decide),
   (active_gen_id_consistency exConflictActive rfl).2.2
     ⟨mkNode "a" 1 "ec2" (some "i-1") "web" 1 1, by decide,
      mkNode "b" 2 "ec2" (some "i-2") "web2" 1 1, by decide, by decide⟩⟩

/-- Witness for C3: a configured pending role with no node at all makes
`increment_generation` fail with no writes. -/
theorem increment_generation_unhealthy_witness :
    increment_generation missingRoleState =
      ([], .error "Pending generation must be fully healthy to increment_generation") :=
  increment_generation_unhealthy_no_mutation missingRoleState
    [RepairTarget.missing "rds" "db"] rfl (by decide)

/-- Witness for C4: the guard fires on a concrete active operational
RDS node. -/
theorem terminate_retire_guard_witness :
    terminate rdsActiveNode (some plainConf) rdsEnv =
      .error "Cannot hard-terminate an active, operational node" ∧
    retire rdsActiveNode (some plainConf) rdsEnv =
      .error "Cannot retire an active, operational node" :=
  terminate_retire_guard rdsActiveNode (some plainConf) rdsEnv (by decide) rfl

/-- Witness for C6: the non-interactive abort at a concrete
operational node without redundancy. -/
theorem seamless_modification_aborts_witness :
    seamless_modification_enter (some (rdsActiveNode, plainConf)) rdsActiveState
        true false false "N" =
      ([], .error "Deployment marked non-interactive. Aborting.") :=
  seamless_modification_aborts_without_redundancy (rdsActiveNode, plainConf)
    rdsActiveState false "N" rfl rfl

/-- Witness for C7: the fixed point at a concrete fully-operational
active generation. -/
theorem repair_active_generation_fixed_point_witness :
    ∃ s1, repair_active_generation rdsActiveState false true = ([], .ok (s1, [])) ∧
      s1 = rdsActiveState ∧
      repair_active_generation s1 false true = ([], .ok (s1, [])) :=
  repair_active_generation_fixed_point rdsActiveState false true rfl

/-- Witness for C8: derived pending id with and without an active
generation. -/
theorem pending_gen_id_derived_witness :
    pending_gen_id rdsActiveState = .ok 2 ∧
    pending_gen_id missingRoleState = .ok 1 :=
  ⟨(pending_gen_id_derived rdsActiveState rfl).1 1 rfl,
   (pending_gen_id_derived missingRoleState rfl).2 rfl⟩

/-- Witness for C10: the first-ever promotion at a concrete state with
a healthy pending generation 1 and no active generation. -/
theorem increment_generation_first_promotion_witness :
    increment_generation firstPromotionState =
      ((get_all_nodes firstPromotionState (some 1) none).map
        (fun p => Event.save {p.1 with is_active_generation := 1}),
       .error "TypeError: unsupported operand types for +=: NoneType and int") :=
  increment_generation_first_promotion firstPromotionState rfl rfl rfl

/-- C5 counterexample: a compute node whose live state is running with
the matching keypair and a configured health check whose probe body
lacks the required substring is NOT healthy, yet it IS operational
(the source computes `is_operational` without consulting the probe, so
the claim that `isOperational` is also false fails here). -/
theorem failed_probe_still_operational :
    probeInst.state = "running" ∧
    probeInst.key_name = probeConf.keypair ∧
    probeConf.health_check = some probeHC ∧
    probeEnv.httpGet "http://web5.example.com/status" = some "ERROR: database down" ∧
    strContains "ERROR: database down" probeHC.status_contains = false ∧
    is_healthy probeNode (some probeConf) probeEnv = false ∧
    is_operational probeNode (some probeConf) probeEnv = true :=
  ⟨rfl, rfl, rfl, rfl, by decide, rfl, rfl⟩

/-- C5 amended: for a compute node with live state running, matching
keypair and a configured health check whose probe response lacks the
required substring, `is_healthy` is false; `is_operational`, however,
is computed without the health probe (it depends only on the
run-state, credential, elastic-IP and load-balancer checks), so it is
unchanged under any probe outcome and can in particular be true. -/
theorem is_operational_ignores_health_probe
    (node : Node) (info : DeployConf) (env : CloudEnv) (inst : Ec2Instance)
    (awsId : String) (hc : HealthCheck) (body : String)
    (htype : node.aws_type = "ec2")
    (hid : node.aws_id = some awsId)
    (hinst : env.ec2Instances awsId = some inst)
    (hstate : inst.state = "running")
    (hkey : inst.key_name = info.keypair)
    (hhc : info.health_check = some hc)
    (hdns : inst.public_dns_name ≠ "")
    (hget : env.httpGet ("http://" ++ inst.public_dns_name ++ hc.status_url) = some body)
    (hbody : strContains body hc.status_contains = false) :
    is_healthy node (some info) env = false ∧
    ∀ probe : String → Option String,
      is_operational node (some info) {env with httpGet := probe} =
        is_operational node (some info) env := by
  constructor
  · unfold is_healthy
    rw [hid]
    have ht : (node.aws_type == "ec2") = true := by simp [htype]
    rw [ht]
    simp only [if_true]
    rw [hinst]
    have hs : (inst.state != "running") = false := by simp [hstate]
    have hk : (inst.key_name != info.keypair) = false := by simp [hkey]
    show (if (inst.state != "running") = true then false
          else if (inst.key_name != info.keypair) = true then false
          else passes_health_check inst info env) = false
    rw [hs, hk]
    simp only [Bool.false_eq_true, if_false]
    unfold passes_health_check get_health_check_url
    rw [hhc]
    have hd : (inst.public_dns_name == "") = false := by simp [hdns]
    rw [hd]
    simp only [Bool.false_eq_true, if_false]
    rw [hget]
    exact hbody
  · intro probe
    cases env
    rfl

/-- Witness for the amended C5 at the concrete failed-probe node. -/
theorem is_operational_ignores_health_probe_witness :
    is_healthy probeNode (some probeConf) probeEnv = false ∧
    ∀ probe : String → Option String,
      is_operational probeNode (some probeConf) {probeEnv with httpGet := probe} =
        is_operational probeNode (some probeConf) probeEnv :=
  is_operational_ignores_health_probe probeNode probeConf probeEnv probeInst
    "i-5" probeHC "ERROR: database down" rfl rfl rfl rfl rfl rfl (by decide) rfl
    (by decide)

/-- C2 counterexample: `dupWebB` is a second operational running node,
distinct from `dupWebA`, of the same resource type and generation, yet
`has_required_redundancy` is false for `dupWebA` because the source
excludes the checked node by `name` (not record identity) and both
records carry the role name "web". -/
theorem has_required_redundancy_same_name_counterexample :
    dupWebB ∈ dupWebState.tracker ∧
    dupWebB ≠ dupWebA ∧
    dupWebB.aws_type = dupWebA.aws_type ∧
    dupWebB.generation_id = dupWebA.generation_id ∧
    dupWebB.is_running = 1 ∧
    is_operational dupWebB (confLookup dupWebState "ec2" "web") dupWebState.env = true ∧
    has_required_redundancy dupWebState dupWebA = false :=
  ⟨by decide, by decide, rfl, rfl, rfl, rfl, rfl⟩

/-- Membership in `get_all_nodes` for a nonzero generation filter: a
configured pair of the deployment with the right generation (and
`is_running` when filtered). -/
theorem mem_get_all_nodes (s : DeployState) (g : Nat) (r : Option Nat)
    (p : Node × DeployConf) (hg : g ≠ 0) :
    p ∈ get_all_nodes s (some g) r ↔
      p.1 ∈ s.tracker ∧ p.1.deployment_name = s.deployment_name ∧
      p.1.generation_id = g ∧
      (∀ rr, r = some rr → p.1.is_running = rr) ∧
      confLookup s p.1.aws_type p.1.name = some p.2 := by
  have hgb : (g != 0) = true := by simp [hg]
  cases r with
  | none =>
    simp [get_all_nodes, hgb, List.mem_filterMap, List.mem_filter,
      Option.map_eq_some', Prod.ext_iff, beq_iff_eq]
    tauto
  | some rr =>
    simp [get_all_nodes, hgb, List.mem_filterMap, List.mem_filter,
      Option.map_eq_some', Prod.ext_iff, beq_iff_eq]
    tauto

/-- A boolean list-nonemptiness bridge used by the redundancy proof. -/
theorem bool_not_isEmpty_iff (l : List (Node × DeployConf)) :
    (!l.isEmpty) = true ↔ ∃ p, p ∈ l := by
  cases l <;> simp

/-- C2 amended: `has_required_redundancy` is true iff some running
tracker record of the same deployment, resource type and generation,
whose role `name` DIFFERS from the checked node (the source excludes
the checked node by name, not identity), is operational under its
attached configuration (an unconfigured record is never operational,
`is_operational_no_conf`). -/
theorem has_required_redundancy_iff (s : DeployState) (node : Node)
    (hg : node.generation_id ≠ 0) :
    has_required_redundancy s node = true ↔
      ∃ n ∈ s.tracker,
        n.deployment_name = s.deployment_name ∧
        n.generation_id = node.generation_id ∧
        n.is_running = 1 ∧
        n.aws_type = node.aws_type ∧
        n.name ≠ node.name ∧
        is_operational n (confLookup s n.aws_type n.name) s.env = true := by
  unfold has_required_redundancy
  rw [bool_not_isEmpty_iff]
  constructor
  · rintro ⟨p, hp⟩
    rw [List.mem_filter] at hp
    obtain ⟨hp1, hq⟩ := hp
    rw [List.mem_filter] at hp1
    obtain ⟨hpL, htype⟩ := hp1
    rw [Bool.and_eq_true] at hq
    obtain ⟨hname, hop⟩ := hq
    rw [mem_get_all_nodes s node.generation_id (some 1) p hg] at hpL
    obtain ⟨htr, hdep, hgen, hrun, hconf⟩ := hpL
    refine ⟨p.1, htr, hdep, hgen, hrun 1 rfl, ?_, ?_, ?_⟩
    · rwa [beq_iff_eq] at htype
    · simpa using hname
    · rw [hconf]; exact hop
  · rintro ⟨n, htr, hdep, hgen, hrun, htype, hname, hop⟩
    obtain ⟨c, hc⟩ : ∃ c, confLookup s n.aws_type n.name = some c := by
      cases hcl : confLookup s n.aws_type n.name with
      | none => rw [hcl, is_operational_no_conf] at hop; cases hop
      | some c => exact ⟨c, rfl⟩
    refine ⟨(n, c), ?_⟩
    rw [List.mem_filter]
    constructor
    · rw [List.mem_filter]
      constructor
      · rw [mem_get_all_nodes s node.generation_id (some 1) (n, c) hg]
        exact ⟨htr, hdep, hgen, fun rr h => by cases h; exact hrun, hc⟩
      · simpa using htype
    · rw [Bool.and_eq_true]
      constructor
      · simpa using hname
      · show is_operational n (some c) s.env = true
        rw [← hc]
        exact hop

/-- Witness for the amended C2 at a concrete two-role state. -/
theorem has_required_redundancy_iff_witness :
    has_required_redundancy twoRoleState
        (mkNode "web-a" 1 "ec2" (some "i-1") "web" 1 1) = true ↔
      ∃ n ∈ twoRoleState.tracker,
        n.deployment_name = twoRoleState.deployment_name ∧
        n.generation_id = (mkNode "web-a" 1 "ec2" (some "i-1") "web" 1 1).generation_id ∧
        n.is_running = 1 ∧
        n.aws_type = (mkNode "web-a" 1 "ec2" (some "i-1") "web" 1 1).aws_type ∧
        n.name ≠ (mkNode "web-a" 1 "ec2" (some "i-1") "web" 1 1).name ∧
        is_operational n (confLookup twoRoleState n.aws_type n.name)
          twoRoleState.env = true :=
  has_required_redundancy_iff twoRoleState
    (mkNode "web-a" 1 "ec2" (some "i-1") "web" 1 1) (by decide)

/-- `recordSaves` distributes over append. -/
theorem recordSaves_append (a b : List Event) :
    recordSaves (a ++ b) = recordSaves a ++ recordSaves b := by
  simp [recordSaves]

/-- AWS mutations contribute no record writes. -/
theorem recordSaves_cloud (l : List CloudOp) :
    recordSaves (l.map Event.cloud) = [] := by
  induction l with
  | nil => rfl
  | cons x xs ih => exact ih

/-- The record writes of a list of saves are exactly the saved nodes. -/
theorem recordSaves_save_map (f : Node × DeployConf → Node)
    (l : List (Node × DeployConf)) :
    recordSaves (l.map (fun x => Event.save (f x))) = l.map f := by
  induction l with
  | nil => rfl
  | cons x xs ih => exact congrArg (List.cons (f x)) ih

/-- The event log of `increment_finish` is the already-issued log
followed by the repair AWS mutations. -/
theorem increment_finish_fst (log : List Event) (s2 : DeployState) :
    (increment_finish log s2).1 =
      log ++ (repair_active_generation s2 false true).1.map Event.cloud := by
  unfold increment_finish
  rcases hx : repair_active_generation s2 false true with ⟨rlog, rres⟩
  rcases rres with e | ⟨s3, l⟩ <;> rfl

/-- The record writes of a (healthy, consistent) `increment_generation`
call: first the flip-to-inactive saves for the active generation, then
the flip-to-active saves for the pending generation; the trailing
repair contributes no record write. -/
theorem increment_generation_recordSaves (s : DeployState) (g : Nat)
    (hcp : s.cache_pending = none)
    (hactive : active_gen_id s = .ok (some g)) (hg : g ≠ 0)
    (hh : pending_is_healthy s = .ok true) :
    recordSaves (increment_generation s).1 =
      (get_all_nodes s (some g) none).map
        (fun p => {p.1 with is_active_generation := 0}) ++
      (get_all_nodes s (some (g + 1)) none).map
        (fun p => {p.1 with is_active_generation := 1}) := by
  have hgb : (g != 0) = true := by simp [hg]
  have hpend : pending_gen_id s = .ok (g + 1) := by
    unfold pending_gen_id; rw [hcp]; unfold pendingGenIdScan
    rw [hactive, exceptOkBind]
    show (if (g != 0) = true then pure (g + 1) else pure 1 : Except String Nat) = .ok (g + 1)
    rw [hgb]; rfl
  have hga : get_all_active_nodes s none = .ok (get_all_nodes s (some g) none) := by
    unfold get_all_active_nodes; rw [hactive, exceptOkBind]
    show (if (g != 0) = true then pure (get_all_nodes s (some g) none)
      else pure [] : Except String (List (Node × DeployConf))) = _
    rw [hgb]; rfl
  have hgp : get_all_pending_nodes s none = .ok (get_all_nodes s (some (g + 1)) none) := by
    unfold get_all_pending_nodes; rw [hpend, exceptOkBind]; rfl
  have hstep : increment_generation s =
      increment_finish (flipOffSaves s g ++ flipOnSaves s (g + 1))
        {s with
          tracker := applySaveList s.tracker
            (recordSaves (flipOffSaves s g ++ flipOnSaves s (g + 1))),
          cache_active := some (g + 1),
          cache_pending := some (g + 1 + 1)} := by
    unfold increment_generation
    rw [hh, hga, hgp, hactive, hpend]
    rfl
  rw [hstep, increment_finish_fst, recordSaves_append, recordSaves_append,
    recordSaves_cloud, List.append_nil]
  unfold flipOffSaves flipOnSaves
  rw [recordSaves_save_map, recordSaves_save_map]

/-- An element of `applySave tracker w` is the written record or an
untouched record with a different item name. -/
theorem mem_applySave {tracker : List Node} {w m : Node}
    (h : m ∈ applySave tracker w) :
    m = w ∨ (m ∈ tracker ∧ m.nodename ≠ w.nodename) := by
  unfold applySave at h
  rw [List.mem_map] at h
  obtain ⟨m0, hm0, heq⟩ := h
  by_cases hb : (m0.nodename == w.nodename) = true
  · rw [if_pos hb] at heq; left; exact heq.symm
  · rw [if_neg hb] at heq
    subst heq
    right
    exact ⟨hm0, by simpa using hb⟩

/-- An element of `applySaveList tracker ws` is one of the written
records or an untouched record whose item name no write targets. -/
theorem mem_applySaveList (ws : List Node) :
    ∀ (tracker : List Node) (m : Node), m ∈ applySaveList tracker ws →
      m ∈ ws ∨ (m ∈ tracker ∧ ∀ w ∈ ws, w.nodename ≠ m.nodename) := by
  induction ws with
  | nil =>
    intro tracker m h
    right
    exact ⟨h, fun w hw => absurd hw (List.not_mem_nil w)⟩
  | cons w ws ih =>
    intro tracker m h
    have h2 : m ∈ applySaveList (applySave tracker w) ws := h
    rcases ih (applySave tracker w) m h2 with hin | ⟨hmem, hne⟩
    · exact Or.inl (List.mem_cons_of_mem _ hin)
    · rcases mem_applySave hmem with rfl | ⟨htr, hneq⟩
      · exact Or.inl (List.mem_cons_self _ _)
      · refine Or.inr ⟨htr, ?_⟩
        intro w2 hw2
        rcases List.mem_cons.mp hw2 with rfl | hw2s
        · exact hneq.symm
        · exact hne w2 hw2s

/-- When `active_gen_id` returns a generation id, every active-flagged
record of the deployment carries that id (the scan would have raised
otherwise). -/
theorem active_gen_id_flagged_gen (s : DeployState) (g : Nat)
    (hca : s.cache_active = none) (h : active_gen_id s = .ok (some g)) :
    ∀ m ∈ s.tracker, m.deployment_name = s.deployment_name →
      m.is_active_generation = 1 → m.generation_id = g := by
  intro m hm hdep hact
  have hmem : m ∈ activeFlagged s := by
    unfold activeFlagged
    rw [List.mem_filter]
    exact ⟨hm, by simp [hdep, hact]⟩
  unfold active_gen_id at h
  rw [hca] at h
  unfold activeGenIdScan at h
  cases hfl : activeFlagged s with
  | nil => rw [hfl] at hmem; cases hmem
  | cons first rest =>
    rw [hfl] at h hmem
    have h2 : (if ((first :: rest).all fun n => n.generation_id == first.generation_id) = true
        then Except.ok (some first.generation_id)
        else (Except.error "Inconsistent generation ids in simpledb" :
          Except String (Option Nat))) = .ok (some g) := h
    by_cases hall : ((first :: rest).all fun n => n.generation_id == first.generation_id) = true
    · rw [if_pos hall] at h2
      have hfg : first.generation_id = g := by
        injection h2 with h3
        injection h3
      rw [List.all_eq_true] at hall
      have hmg := hall m hmem
      rw [beq_iff_eq] at hmg
      rw [hmg, hfg]
    · rw [if_neg hall] at h2
      cases h2

/-- C9 counterexample: in `ghostState` the pending generation is
healthy and the increment issues its flip-to-false write before its
flip-to-true write, but after applying ONLY the flip-to-false writes
an observer still sees an active-flagged record of the deployment (the
unconfigured `ghostNode` is never flipped) — refuting "zero
active-flagged nodes" between the two write sets. -/
theorem increment_generation_transient_counterexample :
    pending_is_healthy ghostState = .ok true ∧
    active_gen_id ghostState = .ok (some 1) ∧
    recordSaves (increment_generation ghostState).1 =
      [{rdsActiveNode with is_active_generation := 0},
       {rdsPendingNode with is_active_generation := 1}] ∧
    (applySaveList ghostState.tracker
        [{rdsActiveNode with is_active_generation := 0}]).any
      (fun m => m.deployment_name == "d" && m.is_active_generation == 1) = true :=
  ⟨rfl, rfl, rfl, rfl⟩

/-- C9 amended: within a healthy, consistent `increment_generation`
call, the record-write log is exactly the per-node flip-to-false saves
for the active generation followed by the per-node flip-to-true saves
for the pending generation (independent writes, actives strictly
first); an observer between the two sets sees no active-flagged
CONFIGURED record of the deployment — any record still flagged at that
point has no entry in the deployment configuration and is never
flipped. -/
theorem increment_generation_write_ordering (s : DeployState) (g : Nat)
    (hca : s.cache_active = none) (hcp : s.cache_pending = none)
    (hactive : active_gen_id s = .ok (some g)) (hg : g ≠ 0)
    (hh : pending_is_healthy s = .ok true) :
    ∃ activeW pendingW : List Node,
      recordSaves (increment_generation s).1 = activeW ++ pendingW ∧
      (∀ n ∈ activeW, n.is_active_generation = 0 ∧ n.generation_id = g) ∧
      (∀ n ∈ pendingW, n.is_active_generation = 1 ∧ n.generation_id = g + 1) ∧
      (∀ m ∈ applySaveList s.tracker activeW,
        m.deployment_name = s.deployment_name → m.is_active_generation = 1 →
        confLookup s m.aws_type m.name = none) := by
  refine ⟨(get_all_nodes s (some g) none).map
            (fun p => {p.1 with is_active_generation := 0}),
          (get_all_nodes s (some (g + 1)) none).map
            (fun p => {p.1 with is_active_generation := 1}),
          increment_generation_recordSaves s g hcp hactive hg hh, ?_, ?_, ?_⟩
  · intro n hn
    rw [List.mem_map] at hn
    obtain ⟨p, hp, rfl⟩ := hn
    exact ⟨rfl, ((mem_get_all_nodes s g none p hg).mp hp).2.2.1⟩
  · intro n hn
    rw [List.mem_map] at hn
    obtain ⟨p, hp, rfl⟩ := hn
    exact ⟨rfl, ((mem_get_all_nodes s (g + 1) none p (Nat.succ_ne_zero g)).mp hp).2.2.1⟩
  · intro m hm hdep hflag
    rcases mem_applySaveList _ s.tracker m hm with hin | ⟨htr, hne⟩
    · rw [List.mem_map] at hin
      obtain ⟨p, hp, rfl⟩ := hin
      simp at hflag
    · by_contra hconf
      obtain ⟨c, hc⟩ : ∃ c, confLookup s m.aws_type m.name = some c := by
        cases hcl : confLookup s m.aws_type m.name with
        | none => exact absurd hcl hconf
        | some c => exact ⟨c, rfl⟩
      have hgen : m.generation_id = g :=
        active_gen_id_flagged_gen s g hca hactive m htr hdep hflag
      have hmemA : ((m, c) : Node × DeployConf) ∈ get_all_nodes s (some g) none := by
        refine (mem_get_all_nodes s g none (m, c) hg).mpr ⟨htr, hdep, hgen, ?_, hc⟩
        intro rr hr
        cases hr
      have hmemW : ({m with is_active_generation := 0} : Node) ∈
          (get_all_nodes s (some g) none).map
            (fun p => {p.1 with is_active_generation := 0}) :=
        List.mem_map.mpr ⟨(m, c), hmemA, rfl⟩
      exact hne _ hmemW rfl

/-- Witness for the amended C9 at the concrete healthy promotion
state. -/
theorem increment_generation_write_ordering_witness :
    ∃ activeW pendingW : List Node,
      recordSaves (increment_generation promoteState).1 = activeW ++ pendingW ∧
      (∀ n ∈ activeW, n.is_active_generation = 0 ∧ n.generation_id = 1) ∧
      (∀ n ∈ pendingW, n.is_active_generation = 1 ∧ n.generation_id = 1 + 1) ∧
      (∀ m ∈ applySaveList promoteState.tracker activeW,
        m.deployment_name = promoteState.deployment_name →
        m.is_active_generation = 1 →
        confLookup promoteState m.aws_type m.name = none) :=
  increment_generation_write_ordering promoteState 1 rfl rfl rfl (by decide) rfl
